import Mathlib

/-!
Verification of the customer-account authentication subsystem
(OAuth 2.0 authorization-code flow with PKCE) of the storefront template.

Shallow embedding conventions:
* The external key-value session (`HydrogenSession`) is a record of the seven
  enumerated keys of `SESSION_KEYS`; an absent key is `none`.
* JavaScript truthiness on session/query/env string values: `undefined`
  (here `none`) and the empty string are falsy.  The expiry timestamp is a
  number; `0` is falsy.  Timestamps are `Nat` (epoch milliseconds are
  non-negative).
* `Date.now()` is passed explicitly as a `now : Nat` parameter.
* Network collaborators (`fetch`-based discovery, token exchange, refresh)
  are oracle parameters returning `Except`; `.error` models a thrown error
  (non-success HTTP status).  Functions that may perform network calls also
  return the number of network calls they made.
* `atob` + `JSON.parse` of a base64 segment is an oracle
  `String → Option JwtJson`; `none` models a thrown decoding error.
  The only JSON field the code ever inspects is `payload.nonce`.
-/

namespace CustomerAuth

/-- The session record: the seven `SESSION_KEYS` of `customer-auth.ts`
(`customer_code_verifier`, `customer_state`, `customer_nonce`,
`customer_access_token`, `customer_refresh_token`, `customer_id_token`,
`customer_expires_at`). `none` = key absent from the session. -/
structure Session where
  code_verifier : Option String
  state : Option String
  nonce : Option String
  access_token : Option String
  refresh_token : Option String
  id_token : Option String
  expires_at : Option Nat
deriving DecidableEq, Repr

/-- JavaScript truthiness filter for a `string | undefined` value:
`undefined` and `""` are falsy; a truthy value passes through. -/
def truthyStr : Option String → Option String
  | some s => if s = "" then none else some s
  | none => none

/-- JavaScript truthiness test for a `string | undefined` value. -/
def truthy (o : Option String) : Bool :=
  (truthyStr o).isSome

/-- JavaScript `a || b` over two `string | undefined` values, as used for
`env.PUBLIC_CUSTOMER_ACCOUNT_API_CLIENT_ID || env.CUSTOMER_ACCOUNT_CLIENT_ID`,
composed with the truthiness check the callers perform right after
(`if (!clientId) ...`): the result is the first truthy operand, `none` when
neither is truthy. -/
def jsOr (a b : Option String) : Option String :=
  match truthyStr a with
  | some v => some v
  | none => truthyStr b

/-- `CustomerTokens` of `customer-session.ts`. -/
structure CustomerTokens where
  accessToken : String
  refreshToken : String
  idToken : String
  expiresAt : Nat
deriving DecidableEq, Repr

/-- `getCustomerTokens` of `customer-session.ts`: read the four token keys;
return `null` when any is falsy (absent, empty string, or zero expiry). -/
def getCustomerTokens (session : Session) : Option CustomerTokens :=
  match session.access_token, session.refresh_token,
        session.id_token, session.expires_at with
  | some accessToken, some refreshToken, some idToken, some expiresAt =>
    if accessToken = "" ∨ refreshToken = "" ∨ idToken = "" ∨ expiresAt = 0 then
      none
    else
      some ⟨accessToken, refreshToken, idToken, expiresAt⟩
  | _, _, _, _ => none

/-- `isTokenExpired` of `customer-auth.ts`: `Date.now() >= expiresAt`. -/
def isTokenExpired (now expiresAt : Nat) : Bool :=
  now ≥ expiresAt

/-- `isCustomerAuthenticated` of `customer-session.ts`. -/
def isCustomerAuthenticated (now : Nat) (session : Session) : Bool :=
  match getCustomerTokens session with
  | none => false
  | some tokens => ! isTokenExpired now tokens.expiresAt

/-- `clearCustomerSession` of `customer-session.ts`: unset all seven keys. -/
def clearCustomerSession (session : Session) : Session :=
  { session with
    access_token := none
    refresh_token := none
    id_token := none
    expires_at := none
    code_verifier := none
    state := none
    nonce := none }

/-- `calculateExpiresAt` of `customer-auth.ts`: `Date.now() + expiresIn * 1000`. -/
def calculateExpiresAt (now expiresIn : Nat) : Nat :=
  now + expiresIn * 1000

/-- `OpenIDConfiguration` of `customer-auth.ts`. -/
structure OpenIDConfiguration where
  authorization_endpoint : String
  token_endpoint : String
  end_session_endpoint : String
  jwks_uri : String
  issuer : String
deriving DecidableEq, Repr

/-- `AccessTokenResponse` of `customer-auth.ts`. -/
structure AccessTokenResponse where
  access_token : String
  expires_in : Nat
  id_token : String
  refresh_token : String
deriving DecidableEq, Repr

/-- `Omit<AccessTokenResponse, 'id_token'>`: what `refreshAccessToken`
returns (the provider reissues no identity token on refresh). -/
structure RefreshTokenResponse where
  access_token : String
  expires_in : Nat
  refresh_token : String
deriving DecidableEq, Repr

/-- The network collaborators of the auth core, as oracles.  Each field
models one `fetch`-based function of `customer-auth.ts`; `.error msg`
models the `throw new Error(...)` taken on a non-success HTTP status (or
any other network failure).
* `discoverAuth shopDomain` — `discoverAuthEndpoints`.
* `exchangeCode tokenEndpoint clientId redirectUri code codeVerifier` —
  `exchangeCodeForToken`.
* `refreshTok tokenEndpoint clientId refreshToken` — `refreshAccessToken`. -/
structure NetOracle where
  discoverAuth : String → Except String OpenIDConfiguration
  exchangeCode : String → String → String → String → String →
    Except String AccessTokenResponse
  refreshTok : String → String → String → Except String RefreshTokenResponse

/-- Result of a session-store operation that may touch the network:
the returned value, the session afterwards, and how many network calls
were made. -/
structure NetResult (α : Type) where
  value : α
  session : Session
  netCalls : Nat
deriving DecidableEq, Repr

/-- `getValidAccessToken` of `customer-session.ts`:
return `null` when no token set is stored; return the cached access token
when it is not expired; otherwise discover the token endpoint and attempt a
refresh, on success overwriting access token, refresh token and expiry and
returning the new access token, on any failure clearing the whole customer
session and returning `null`.  Both `Date.now()` readings of the source
(inside `isTokenExpired` and when storing the new expiry) are the same
request-scoped `now`. -/
def getValidAccessToken (net : NetOracle) (now : Nat) (session : Session)
    (shopDomain clientId : String) : NetResult (Option String) :=
  match getCustomerTokens session with
  | none => ⟨none, session, 0⟩
  | some tokens =>
    if ! isTokenExpired now tokens.expiresAt then
      ⟨some tokens.accessToken, session, 0⟩
    else
      match net.discoverAuth shopDomain with
      | .error _ => ⟨none, clearCustomerSession session, 1⟩
      | .ok authConfig =>
        match net.refreshTok authConfig.token_endpoint clientId
            tokens.refreshToken with
        | .error _ => ⟨none, clearCustomerSession session, 2⟩
        | .ok newTokens =>
          let session' :=
            { session with
              access_token := some newTokens.access_token
              refresh_token := some newTokens.refresh_token
              expires_at := some (now + newTokens.expires_in * 1000) }
          ⟨some newTokens.access_token, session', 2⟩

/-- The environment variables the auth routes and guards read
(`customer-env.d.ts` and call sites); each is `string | undefined`. -/
structure Env where
  PUBLIC_STORE_DOMAIN : Option String
  PUBLIC_CUSTOMER_ACCOUNT_API_CLIENT_ID : Option String
  CUSTOMER_ACCOUNT_CLIENT_ID : Option String
  SHOP_ID : Option String
  PUBLIC_CUSTOMER_ACCOUNT_API_URL : Option String
deriving DecidableEq, Repr

/-- `optionalAuth` of `customer-auth-guards`: return `null` when config is
missing, return `null` when `isCustomerAuthenticated` is false, otherwise
delegate to `getValidAccessToken` (whose thrown errors the source catches
into `null`; the embedded `getValidAccessToken` never throws). -/
def optionalAuth (net : NetOracle) (now : Nat) (env : Env)
    (session : Session) : NetResult (Option String) :=
  match truthyStr env.PUBLIC_STORE_DOMAIN,
        jsOr env.PUBLIC_CUSTOMER_ACCOUNT_API_CLIENT_ID
          env.CUSTOMER_ACCOUNT_CLIENT_ID with
  | some shopDomain, some clientId =>
    if ! isCustomerAuthenticated now session then
      ⟨none, session, 0⟩
    else
      getValidAccessToken net now session shopDomain clientId
  | _, _ => ⟨none, session, 0⟩

/-- JavaScript `str.split(sep)` over the character list of the string:
`"".split` is `[""]`, separators at the ends produce empty segments. -/
def splitChars (sep : Char) : List Char → List (List Char)
  | [] => [[]]
  | c :: cs =>
    let rest := splitChars sep cs
    if c = sep then
      [] :: rest
    else
      match rest with
      | [] => [[c]]
      | seg :: tail => (c :: seg) :: tail

/-- JavaScript `token.split('.')` as a list of strings. -/
def jsSplitDots (token : String) : List String :=
  (splitChars '.' token.toList).map List.asString

/-- The result of `JSON.parse(atob(segment))` on a token segment.  The only
claim the core ever inspects is `nonce`; all other claims pass through
opaquely and are not modelled. -/
structure JwtJson where
  nonce : Option String
deriving DecidableEq, Repr

/-- The two ways `decodeJwt` can throw: the explicit
`Error('Invalid JWT token format')`, or a failure inside
`atob` / `JSON.parse` on a segment. -/
inductive JwtError where
  | invalidFormat
  | parseFailure
deriving DecidableEq, Repr

/-- `DecodedJWT` of `customer-auth.ts`. -/
structure DecodedJWT where
  header : JwtJson
  payload : JwtJson
  signature : String
deriving DecidableEq, Repr

/-- `decodeJwt` of `customer-auth.ts`:
`const [header, payload, signature] = token.split('.')` (array
destructuring: a missing element is `undefined`), throw
`'Invalid JWT token format'` when any of the three is falsy, then
`JSON.parse(atob(...))` the first two segments (the `parse` oracle models
`JSON.parse ∘ atob`; `none` = thrown) and keep the third as the signature.
Segments past the third are ignored by the destructuring. -/
def decodeJwt (parse : String → Option JwtJson) (token : String) :
    Except JwtError DecodedJWT :=
  let parts := jsSplitDots token
  match truthyStr parts[0]?, truthyStr parts[1]?, truthyStr parts[2]? with
  | some header, some payload, some signature =>
    match parse header, parse payload with
    | some decodedHeader, some decodedPayload =>
      .ok ⟨decodedHeader, decodedPayload, signature⟩
    | _, _ => .error .parseFailure
  | _, _, _ => .error .invalidFormat

/-- The format condition `decodeJwt` actually enforces on the dot-split of
the token: at least three segments, the first three non-empty (segments
past the third are ignored by the destructuring). -/
def hasThreeNonEmptySegments (token : String) : Prop :=
  match jsSplitDots token with
  | h :: p :: s :: _ => h ≠ "" ∧ p ≠ "" ∧ s ≠ ""
  | _ => False

/-- `getNonce` of `customer-auth.ts`: `decodeJwt(idToken).payload.nonce`. -/
def getNonce (parse : String → Option JwtJson) (idToken : String) :
    Except JwtError (Option String) :=
  (decodeJwt parse idToken).map fun d => d.payload.nonce

/-- The regex probe `url.match(/\x7b\x7d/)`-style extraction
`PUBLIC_CUSTOMER_ACCOUNT_API_URL.match(/\/(\d+)$/)?.[1]` used by the
authorize/callback routes: the non-empty run of trailing digits of the URL,
provided it is preceded by a slash; `none` when the regex does not match. -/
def matchShopId (url : String) : Option String :=
  let rev := url.toList.reverse
  let ds := rev.takeWhile Char.isDigit
  if ds.isEmpty then none
  else
    match rev.drop ds.length with
    | '/' :: _ => some ds.reverse.asString
    | _ => none

/-- The shop-id resolution of the callback route: `env.SHOP_ID` when
truthy, else the digits extracted from `env.PUBLIC_CUSTOMER_ACCOUNT_API_URL`
when that is truthy and the regex matches, else undetermined. -/
def resolveShopId (env : Env) : Option String :=
  match truthyStr env.SHOP_ID with
  | some shopId => some shopId
  | none =>
    match truthyStr env.PUBLIC_CUSTOMER_ACCOUNT_API_URL with
    | some url => matchShopId url
    | none => none

/-- The query parameters of the callback request
(`url.searchParams.get(...)`; `none` = parameter absent). -/
structure CallbackRequest where
  code : Option String
  state : Option String
  error : Option String
deriving DecidableEq, Repr

/-- How the callback loader terminates: a redirect to
`/account/login?error=<code>`, the success redirect to `/account`, or a
thrown configuration error. -/
inductive CallbackResult where
  | redirectLoginError (code : String)
  | redirectAccount
  | thrown (msg : String)
deriving DecidableEq, Repr

/-- Outcome of the callback loader: terminal result, session afterwards,
and how many times `exchangeCodeForToken` was invoked. -/
structure CallbackOutcome where
  result : CallbackResult
  session : Session
  exchangeCalls : Nat
deriving DecidableEq, Repr

/-- The `loader` of `account.authorize.callback.tsx`, line by line:
provider `error` parameter; missing `code`/`state`; state (CSRF) check
against the stored state; stored PKCE verifier; environment
(`PUBLIC_STORE_DOMAIN`, client id, shop id); token exchange against the
direct token endpoint (a thrown exchange error is caught into
`token_exchange_failed`); nonce check against the stored nonce when one is
stored (a throw inside `getNonce` lands in the same catch); then persist
the four token keys, drop the three in-flight keys and redirect to
`/account`.  `origin` is `url.origin` of the request. -/
def callbackLoader (net : NetOracle) (parse : String → Option JwtJson)
    (now : Nat) (env : Env) (origin : String) (req : CallbackRequest)
    (session : Session) : CallbackOutcome :=
  if truthy req.error then
    ⟨.redirectLoginError (req.error.getD ""), session, 0⟩
  else
    match truthyStr req.code, truthyStr req.state with
    | some code, some state =>
      if session.state ≠ some state then
        ⟨.redirectLoginError "invalid_state", session, 0⟩
      else
        match truthyStr session.code_verifier with
        | none => ⟨.redirectLoginError "missing_verifier", session, 0⟩
        | some codeVerifier =>
          match truthyStr env.PUBLIC_STORE_DOMAIN,
                jsOr env.PUBLIC_CUSTOMER_ACCOUNT_API_CLIENT_ID
                  env.CUSTOMER_ACCOUNT_CLIENT_ID with
          | some _shopDomain, some clientId =>
            match resolveShopId env with
            | none =>
              ⟨.thrown "SHOP_ID could not be determined from environment variables",
               session, 0⟩
            | some shopId =>
              let tokenEndpoint :=
                "https://shopify.com/authentication/" ++ shopId ++ "/oauth/token"
              let redirectUri := origin ++ "/account/authorize/callback"
              match net.exchangeCode tokenEndpoint clientId redirectUri code
                  codeVerifier with
              | .error _ =>
                ⟨.redirectLoginError "token_exchange_failed", session, 1⟩
              | .ok tokenResponse =>
                let proceed : CallbackOutcome :=
                  let expiresAt := calculateExpiresAt now tokenResponse.expires_in
                  let session' :=
                    { session with
                      access_token := some tokenResponse.access_token
                      refresh_token := some tokenResponse.refresh_token
                      id_token := some tokenResponse.id_token
                      expires_at := some expiresAt
                      code_verifier := none
                      state := none
                      nonce := none }
                  ⟨.redirectAccount, session', 1⟩
                match truthyStr session.nonce with
                | none => proceed
                | some storedNonce =>
                  match getNonce parse tokenResponse.id_token with
                  | .error _ =>
                    ⟨.redirectLoginError "token_exchange_failed", session, 1⟩
                  | .ok tokenNonce =>
                    if tokenNonce ≠ some storedNonce then
                      ⟨.redirectLoginError "invalid_nonce", session, 1⟩
                    else
                      proceed
          | _, _ =>
            ⟨.thrown "Required environment variables not set", session, 0⟩
    | _, _ => ⟨.redirectLoginError "invalid_callback", session, 0⟩

/-- `buildLogoutUrl` of `customer-auth.ts`, with `URLSearchParams`
serialization abstracted to plain query-string concatenation
(no percent-encoding modelled; the end-session endpoint is assumed to
carry no query string of its own). -/
def buildLogoutUrl (endSessionEndpoint idToken postLogoutRedirectUri :
    String) : String :=
  endSessionEndpoint ++ "?id_token_hint=" ++ idToken ++
    "&post_logout_redirect_uri=" ++ postLogoutRedirectUri

/-- How the logout loader terminates. -/
inductive LogoutResult where
  | redirect (url : String)
  | thrown (msg : String)
deriving DecidableEq, Repr

/-- The `loader` of `account.logout.tsx`: throw when
`PUBLIC_STORE_DOMAIN` is missing; read the stored id token; unset the four
token keys; when an id token was stored, discover the end-session endpoint
and redirect to the provider logout URL (any discovery failure is caught
into a plain redirect home); otherwise redirect home. -/
def logoutLoader (net : NetOracle) (env : Env) (origin : String)
    (session : Session) : LogoutResult × Session :=
  match truthyStr env.PUBLIC_STORE_DOMAIN with
  | none =>
    (.thrown "PUBLIC_STORE_DOMAIN environment variable is not set", session)
  | some shopDomain =>
    let idToken := session.id_token
    let session' :=
      { session with
        access_token := none
        refresh_token := none
        id_token := none
        expires_at := none }
    match truthyStr idToken with
    | some idTokenVal =>
      match net.discoverAuth shopDomain with
      | .error _ => (.redirect "/", session')
      | .ok authConfig =>
        (.redirect
          (buildLogoutUrl authConfig.end_session_endpoint idTokenVal
            (origin ++ "/")),
         session')
    | none => (.redirect "/", session')

/-- The standard base64 alphabet used by `btoa`. -/
def b64Alphabet : List Char :=
  "ABCDEFGHIJKLMNOPQRSTUVWXYZabcdefghijklmnopqrstuvwxyz0123456789+/".toList

/-- Character of the standard base64 alphabet at a 6-bit index. -/
def b64CharAt (i : Nat) : Char :=
  b64Alphabet.getD i '?'

/-- The base64url alphabet (RFC 4648 §5): standard alphabet with `-` and
`_` in place of `+` and `/`. -/
def b64UrlAlphabet : List Char :=
  "ABCDEFGHIJKLMNOPQRSTUVWXYZabcdefghijklmnopqrstuvwxyz0123456789-_".toList

/-- Character of the base64url alphabet at a 6-bit index. -/
def b64UrlCharAt (i : Nat) : Char :=
  b64UrlAlphabet.getD i '?'

/-- `btoa` over a binary string whose char codes are the given bytes
(in the source the digest bytes reach `btoa` via
`convertBufferToString`, i.e. `String.fromCharCode` applied to the
`Uint8Array`, so the code units are exactly the digest bytes): standard
base64 with `=` padding, three input bytes per four output characters. -/
def btoaBytes : List Nat → List Char
  | [] => []
  | [b1] =>
    [b64CharAt (b1 / 4), b64CharAt (b1 % 4 * 16), '=', '=']
  | [b1, b2] =>
    [b64CharAt (b1 / 4), b64CharAt (b1 % 4 * 16 + b2 / 16),
     b64CharAt (b2 % 16 * 4), '=']
  | b1 :: b2 :: b3 :: rest =>
    b64CharAt (b1 / 4) :: b64CharAt (b1 % 4 * 16 + b2 / 16) ::
      b64CharAt (b2 % 16 * 4 + b3 / 64) :: b64CharAt (b3 % 64) ::
      btoaBytes rest

/-- The first replacement of `base64UrlEncode`: `.replace(/\+/g, '-')`. -/
def repPlus (c : Char) : Char :=
  if c = '+' then '-' else c

/-- The second replacement of `base64UrlEncode`: `.replace(/\//g, '_')`. -/
def repSlash (c : Char) : Char :=
  if c = '/' then '_' else c

/-- `base64UrlEncode` of `customer-auth.ts` applied to the bytes behind the
binary string: `btoa`, then globally replace `+` by `-`, `/` by `_`, and
delete every `=`. -/
def base64UrlEncode (bytes : List Nat) : List Char :=
  (((btoaBytes bytes).map repPlus).map repSlash).filter fun c => c != '='

/-- UTF-8 encoding of one code point (RFC 3629): one to four bytes. -/
def utf8EncodeChar (c : Char) : List Nat :=
  let n := c.toNat
  if n < 128 then
    [n]
  else if n < 2048 then
    [192 + n / 64, 128 + n % 64]
  else if n < 65536 then
    [224 + n / 4096, 128 + n / 64 % 64, 128 + n % 64]
  else
    [240 + n / 262144, 128 + n / 4096 % 64, 128 + n / 64 % 64, 128 + n % 64]

/-- The UTF-8 bytes of a string (`new TextEncoder().encode(...)`). -/
def utf8Bytes (s : String) : List Nat :=
  s.data.foldr (fun c acc => utf8EncodeChar c ++ acc) []

/-- `generateCodeChallenge` of `customer-auth.ts`:
`crypto.subtle.digest('SHA-256', utf8(verifier))`, the digest bytes turned
into a binary string by `convertBufferToString`, then `base64UrlEncode`.
The SHA-256 primitive is the external crypto collaborator, passed as the
`sha256` oracle over byte lists. -/
def generateCodeChallenge (sha256 : List Nat → List Nat)
    (codeVerifier : String) : List Char :=
  base64UrlEncode (sha256 (utf8Bytes codeVerifier))

/-- Modelled from the spec (for comparison with the source pipeline, claim
C5): direct base64url encoding of a byte sequence "without padding" — the
base64url alphabet, four characters per three bytes, a two- or
three-character final group for a partial block, and no `=` characters. -/
def base64UrlNoPad : List Nat → List Char
  | [] => []
  | [b1] =>
    [b64UrlCharAt (b1 / 4), b64UrlCharAt (b1 % 4 * 16)]
  | [b1, b2] =>
    [b64UrlCharAt (b1 / 4), b64UrlCharAt (b1 % 4 * 16 + b2 / 16),
     b64UrlCharAt (b2 % 16 * 4)]
  | b1 :: b2 :: b3 :: rest =>
    b64UrlCharAt (b1 / 4) :: b64UrlCharAt (b1 % 4 * 16 + b2 / 16) ::
      b64UrlCharAt (b2 % 16 * 4 + b3 / 64) :: b64UrlCharAt (b3 % 64) ::
      base64UrlNoPad rest

/-- Modelled from the spec (comparison side of claim C5): the challenge is
the base64url encoding, without padding, of the SHA-256 digest of the
UTF-8 bytes of the verifier. -/
def specCodeChallenge (sha256 : List Nat → List Nat)
    (codeVerifier : String) : List Char :=
  base64UrlNoPad (sha256 (utf8Bytes codeVerifier))

/-! Concrete example inputs used to instantiate the theorems below. -/

/-- A concrete discovered configuration. -/
def cfgW : OpenIDConfiguration :=
  ⟨"https://auth/authorize", "https://auth/token", "https://auth/logout",
   "https://auth/jwks", "https://auth"⟩

/-- A concrete code-exchange response; its id token decodes under
`parseW` to the nonce `"n2"`. -/
def tokW : AccessTokenResponse :=
  ⟨"A", 3600, "hdr.pl.sig", "R"⟩

/-- A concrete refresh response. -/
def refW : RefreshTokenResponse :=
  ⟨"NEW", 3600, "R2"⟩

/-- An oracle on which every network call succeeds. -/
def netW : NetOracle :=
  ⟨fun _ => .ok cfgW, fun _ _ _ _ _ => .ok tokW, fun _ _ _ => .ok refW⟩

/-- An oracle on which discovery succeeds but both token-endpoint
operations return a non-success status (e.g. HTTP 400). -/
def netFail : NetOracle :=
  ⟨fun _ => .ok cfgW, fun _ _ _ _ _ => .error "400",
   fun _ _ _ => .error "400"⟩

/-- A concrete `JSON.parse ∘ atob` oracle for the segments of
`tokW.id_token`: the payload carries the nonce `"n2"`. -/
def parseW : String → Option JwtJson :=
  fun s =>
    if s = "hdr" then some ⟨none⟩
    else if s = "pl" then some ⟨some "n2"⟩
    else none

/-- A concrete `JSON.parse ∘ atob` oracle knowing only the segment
`"e30"`, which in JavaScript decodes via `atob` to the two characters of
an empty object and then JSON-parses to an object with no `nonce`. -/
def parseE30 : String → Option JwtJson :=
  fun s => if s = "e30" then some ⟨none⟩ else none

/-- A session holding a token set that expires at epoch-millisecond 1000. -/
def sessionAuth : Session :=
  ⟨none, none, none, some "A", some "R", some "I", some 1000⟩

/-- A session holding a token set that expires at epoch-millisecond 10. -/
def sessionExp : Session :=
  ⟨none, none, none, some "A", some "R", some "I", some 10⟩

/-- A session in the middle of an authorization attempt: verifier `"ver"`,
state `"st"`, nonce `"n1"` stored, no tokens. -/
def sessionCb : Session :=
  ⟨some "ver", some "st", some "n1", none, none, none, none⟩

/-- A session whose stored state is `"s1"`. -/
def sessionS1 : Session :=
  ⟨some "ver", some "s1", none, none, none, none, none⟩

/-- An environment with shop domain, public client id and shop id set. -/
def envW : Env :=
  ⟨some "shop.example", some "cid", none, some "123", none⟩

/-- An environment with no variable set. -/
def envNone : Env :=
  ⟨none, none, none, none, none⟩

/-- A callback request carrying code `"c"` and state `"st"`. -/
def reqOk : CallbackRequest :=
  ⟨some "c", some "st", none⟩

/-- A callback request carrying code `"c"`, state `"s2"` and the provider
error parameter `"access_denied"`. -/
def reqErr : CallbackRequest :=
  ⟨some "c", some "s2", some "access_denied"⟩

/-- A concrete stand-in for the digest oracle: a fixed 32-byte output. -/
def shaW : List Nat → List Nat :=
  fun _ =>
    [0, 1, 255, 100, 42, 7, 200, 16, 3, 99, 250, 128, 64, 33, 17, 9,
     88, 77, 66, 55, 44, 211, 22, 11, 5, 6, 123, 234, 190, 180, 170, 160]

end CustomerAuth

namespace CustomerAuth

/-- C4: for every session holding a complete token set (all three token
strings non-empty and an expiry key present), `isCustomerAuthenticated` is
true iff `Date.now()` is strictly below `expiresAt`; in particular at
`now = expiresAt` the token set is treated as expired (inclusive boundary,
no grace window). -/
theorem isCustomerAuthenticated_iff_now_lt_expiresAt
    (now : Nat) (session : Session) (a r i : String) (e : Nat)
    (ha : session.access_token = some a)
    (hr : session.refresh_token = some r)
    (hi : session.id_token = some i)
    (he : session.expires_at = some e)
    (hna : a ≠ "") (hnr : r ≠ "") (hni : i ≠ "") :
    isCustomerAuthenticated now session = true ↔ now < e := by
  by_cases h0 : e = 0
  · subst h0
    simp [isCustomerAuthenticated, getCustomerTokens, ha, hr, hi, he]
  · simp [isCustomerAuthenticated, getCustomerTokens, ha, hr, hi, he,
      hna, hnr, hni, h0, isTokenExpired]

/-- Witness for C4 at a concrete session: authenticated at `now = 5` with
`expiresAt = 1000`. -/
theorem isCustomerAuthenticated_iff_witness :
    isCustomerAuthenticated 5 sessionAuth = true :=
  (isCustomerAuthenticated_iff_now_lt_expiresAt 5 sessionAuth "A" "R" "I"
    1000 rfl rfl rfl rfl (by decide) (by decide) (by decide)).mpr (by decide)

/-- C3: for every session holding an expired token set, when the refresh
attempt inside `getValidAccessToken` fails (the refresh endpoint returns a
non-success status — or discovery already fails), the function returns the
absence sentinel and all seven session keys (access token, refresh token,
identity token, expiry, code verifier, state, nonce) are cleared. -/
theorem getValidAccessToken_refresh_failure_clears
    (net : NetOracle) (now : Nat) (session : Session)
    (shopDomain clientId : String) (tokens : CustomerTokens)
    (ht : getCustomerTokens session = some tokens)
    (hexp : isTokenExpired now tokens.expiresAt = true)
    (hfail : ∀ cfg, net.discoverAuth shopDomain = .ok cfg →
      ∃ msg, net.refreshTok cfg.token_endpoint clientId tokens.refreshToken
        = .error msg) :
    (getValidAccessToken net now session shopDomain clientId).value = none ∧
    (getValidAccessToken net now session shopDomain clientId).session =
      clearCustomerSession session ∧
    (getValidAccessToken net now session shopDomain clientId).session =
      ⟨none, none, none, none, none, none, none⟩ := by
  have hclear : clearCustomerSession session =
      ⟨none, none, none, none, none, none, none⟩ := rfl
  cases hd : net.discoverAuth shopDomain with
  | error msg =>
    simp [getValidAccessToken, ht, hexp, hd, hclear]
  | ok cfg =>
    obtain ⟨msg, hm⟩ := hfail cfg hd
    simp [getValidAccessToken, ht, hexp, hd, hm, hclear]

/-- Witness for C3: token set expired 10ms before `now = 20`, refresh
endpoint answering HTTP 400. -/
theorem getValidAccessToken_refresh_failure_witness :
    (getValidAccessToken netFail 20 sessionExp "shop.example" "cid").value
        = none ∧
    (getValidAccessToken netFail 20 sessionExp "shop.example" "cid").session
        = clearCustomerSession sessionExp ∧
    (getValidAccessToken netFail 20 sessionExp "shop.example" "cid").session
        = ⟨none, none, none, none, none, none, none⟩ :=
  getValidAccessToken_refresh_failure_clears netFail 20 sessionExp
    "shop.example" "cid" ⟨"A", "R", "I", 10⟩ (by decide) (by decide)
    (fun cfg hcfg => ⟨"400", rfl⟩)

/-- C8: with an unexpired token set, `getValidAccessToken` returns the
stored access token with zero network calls; with no token set, it returns
the sentinel immediately with zero network calls; consequently the
optional-auth guard makes zero network calls on an unexpired token set,
and a second call right after the first again makes zero network calls. -/
theorem getValidAccessToken_cached_no_network
    (net : NetOracle) (now : Nat) (env : Env) (session : Session)
    (shopDomain clientId : String) :
    (∀ tokens, getCustomerTokens session = some tokens →
      isTokenExpired now tokens.expiresAt = false →
      getValidAccessToken net now session shopDomain clientId =
        ⟨some tokens.accessToken, session, 0⟩) ∧
    (getCustomerTokens session = none →
      getValidAccessToken net now session shopDomain clientId =
        ⟨none, session, 0⟩) ∧
    (∀ tokens, getCustomerTokens session = some tokens →
      isTokenExpired now tokens.expiresAt = false →
      (optionalAuth net now env session).netCalls = 0 ∧
      (optionalAuth net now env
        (optionalAuth net now env session).session).netCalls = 0) := by
  refine ⟨?_, ?_, ?_⟩
  · intro tokens ht hexp
    simp [getValidAccessToken, ht, hexp]
  · intro ht
    simp [getValidAccessToken, ht]
  · intro tokens ht hexp
    have hauth : isCustomerAuthenticated now session = true := by
      simp [isCustomerAuthenticated, ht, hexp]
    have key : (optionalAuth net now env session).session = session ∧
        (optionalAuth net now env session).netCalls = 0 := by
      unfold optionalAuth
      cases truthyStr env.PUBLIC_STORE_DOMAIN with
      | none => simp
      | some shopDomain' =>
        cases jsOr env.PUBLIC_CUSTOMER_ACCOUNT_API_CLIENT_ID
            env.CUSTOMER_ACCOUNT_CLIENT_ID with
        | none => simp
        | some clientId' =>
          simp [hauth, getValidAccessToken, ht, hexp]
    refine ⟨key.2, ?_⟩
    rw [key.1]
    exact key.2

/-- Witness for C8 at a concrete session: unexpired token set at
`now = 5`, no network calls on either optional-auth invocation. -/
theorem getValidAccessToken_cached_no_network_witness :
    getValidAccessToken netW 5 sessionAuth "shop.example" "cid" =
      ⟨some "A", sessionAuth, 0⟩ ∧
    (optionalAuth netW 5 envW sessionAuth).netCalls = 0 ∧
    (optionalAuth netW 5 envW
      (optionalAuth netW 5 envW sessionAuth).session).netCalls = 0 := by
  have h := getValidAccessToken_cached_no_network netW 5 envW sessionAuth
    "shop.example" "cid"
  exact ⟨h.1 ⟨"A", "R", "I", 1000⟩ (by decide) (by decide),
    h.2.2 ⟨"A", "R", "I", 1000⟩ (by decide) (by decide)⟩

/-- C9: with an expired token set and a successful refresh,
`getValidAccessToken` overwrites exactly the access-token, refresh-token
and expiry keys with the refreshed values and returns the new access
token; the identity-token key (and the in-flight verifier/state/nonce
keys) are left unchanged. -/
theorem getValidAccessToken_refresh_success_frame
    (net : NetOracle) (now : Nat) (session : Session)
    (shopDomain clientId : String) (tokens : CustomerTokens)
    (cfg : OpenIDConfiguration) (newTokens : RefreshTokenResponse)
    (ht : getCustomerTokens session = some tokens)
    (hexp : isTokenExpired now tokens.expiresAt = true)
    (hd : net.discoverAuth shopDomain = .ok cfg)
    (hr : net.refreshTok cfg.token_endpoint clientId tokens.refreshToken
      = .ok newTokens) :
    (getValidAccessToken net now session shopDomain clientId).value =
      some newTokens.access_token ∧
    (getValidAccessToken net now session shopDomain clientId).session =
      { session with
        access_token := some newTokens.access_token
        refresh_token := some newTokens.refresh_token
        expires_at := some (now + newTokens.expires_in * 1000) } ∧
    (getValidAccessToken net now session shopDomain clientId).session.id_token
      = session.id_token ∧
    (getValidAccessToken net now session shopDomain
      clientId).session.code_verifier = session.code_verifier ∧
    (getValidAccessToken net now session shopDomain clientId).session.state
      = session.state ∧
    (getValidAccessToken net now session shopDomain clientId).session.nonce
      = session.nonce := by
  simp [getValidAccessToken, ht, hexp, hd, hr]

/-- Witness for C9: expired token set at `now = 20`, refresh succeeding
with access token `"NEW"`; the identity token `"I"` is retained. -/
theorem getValidAccessToken_refresh_success_witness :
    (getValidAccessToken netW 20 sessionExp "shop.example" "cid").value =
      some "NEW" ∧
    (getValidAccessToken netW 20 sessionExp "shop.example"
      "cid").session.id_token = some "I" := by
  have h := getValidAccessToken_refresh_success_frame netW 20 sessionExp
    "shop.example" "cid" ⟨"A", "R", "I", 10⟩ cfgW refW (by decide)
    (by decide) rfl rfl
  exact ⟨h.1, by rw [h.2.2.1]; rfl⟩

/-- C10: the logout route leaves the in-flight code-verifier, state and
nonce keys unchanged; whenever it runs past the configuration check it
unsets exactly the four token keys (access, refresh, identity, expiry);
`clearCustomerSession`, in contrast, removes all seven keys. -/
theorem logoutLoader_unsets_only_token_keys
    (net : NetOracle) (env : Env) (origin : String) (session : Session) :
    ((logoutLoader net env origin session).2.code_verifier =
        session.code_verifier ∧
      (logoutLoader net env origin session).2.state = session.state ∧
      (logoutLoader net env origin session).2.nonce = session.nonce) ∧
    (truthy env.PUBLIC_STORE_DOMAIN = true →
      (logoutLoader net env origin session).2.access_token = none ∧
      (logoutLoader net env origin session).2.refresh_token = none ∧
      (logoutLoader net env origin session).2.id_token = none ∧
      (logoutLoader net env origin session).2.expires_at = none) ∧
    clearCustomerSession session = ⟨none, none, none, none, none, none, none⟩
    := by
  refine ⟨?_, ?_, rfl⟩ <;>
  · unfold logoutLoader
    cases hdom : truthyStr env.PUBLIC_STORE_DOMAIN with
    | none => simp [truthy, hdom]
    | some shopDomain =>
      cases hid : truthyStr session.id_token with
      | none => simp [truthy, hdom, hid]
      | some idTokenVal =>
        cases hd : net.discoverAuth shopDomain with
        | error msg => simp [truthy, hdom, hid, hd]
        | ok cfg => simp [truthy, hdom, hid, hd]

/-- Witness for C10 at a concrete session holding all seven keys. -/
theorem logoutLoader_unsets_only_token_keys_witness :
    ((logoutLoader netW envW "https://x"
        ⟨some "v", some "s", some "n", some "A", some "R", some "I",
         some 10⟩).2.code_verifier = some "v") ∧
    ((logoutLoader netW envW "https://x"
        ⟨some "v", some "s", some "n", some "A", some "R", some "I",
         some 10⟩).2.access_token = none) := by
  have h := logoutLoader_unsets_only_token_keys netW envW "https://x"
    ⟨some "v", some "s", some "n", some "A", some "R", some "I", some 10⟩
  exact ⟨h.1.1, (h.2.1 (by decide)).1⟩

/-- C6 (counterexample): with a valid configuration, a session whose token
set expired exactly at `now = 10`, and a refresh endpoint that would
succeed (returning access token `"NEW"`), `optionalAuth` returns the
absence value with zero network calls — it never attempts the refresh the
claim promises, because its `isCustomerAuthenticated` pre-check already
fails for an expired token set. -/
theorem optionalAuth_expired_no_refresh_cex :
    optionalAuth netW 10 envW sessionExp = ⟨none, sessionExp, 0⟩ ∧
    netW.refreshTok cfgW.token_endpoint "cid" "R" = .ok ⟨"NEW", 3600, "R2"⟩ ∧
    getCustomerTokens sessionExp = some ⟨"A", "R", "I", 10⟩ ∧
    isTokenExpired 10 10 = true :=
  ⟨by decide, rfl, by decide, by decide⟩

/-- C6 (amended): for every session holding an expired token set,
`optionalAuth` returns the absence value immediately, with no network call
and no session mutation, regardless of configuration — the refresh path of
`getValidAccessToken` is unreachable from the optional-auth guard. -/
theorem optionalAuth_expired_returns_none
    (net : NetOracle) (now : Nat) (env : Env) (session : Session)
    (tokens : CustomerTokens)
    (ht : getCustomerTokens session = some tokens)
    (hexp : isTokenExpired now tokens.expiresAt = true) :
    optionalAuth net now env session = ⟨none, session, 0⟩ := by
  have hauth : isCustomerAuthenticated now session = false := by
    simp [isCustomerAuthenticated, ht, hexp]
  unfold optionalAuth
  cases truthyStr env.PUBLIC_STORE_DOMAIN with
  | none => simp
  | some shopDomain =>
    cases jsOr env.PUBLIC_CUSTOMER_ACCOUNT_API_CLIENT_ID
        env.CUSTOMER_ACCOUNT_CLIENT_ID with
    | none => simp
    | some clientId => simp [hauth]

/-- Witness for the amended C6 at a concrete expired session. -/
theorem optionalAuth_expired_returns_none_witness :
    optionalAuth netW 10 envNone sessionExp = ⟨none, sessionExp, 0⟩ :=
  optionalAuth_expired_returns_none netW 10 envNone sessionExp
    ⟨"A", "R", "I", 10⟩ (by decide) (by decide)

/-- C1 (counterexample): a callback request carrying code `"c"` and state
`"s2"` against a session whose stored state is `"s1"` — but also carrying
the provider `error` parameter `"access_denied"` — terminates with the
provider error code, not with `invalid_state`: the error branch precedes
the state check.  (`exchangeCodeForToken` is still never invoked.) -/
theorem callbackLoader_state_mismatch_cex :
    (callbackLoader netW parseW 0 envW "https://x" reqErr
        sessionS1).result = .redirectLoginError "access_denied" ∧
    (callbackLoader netW parseW 0 envW "https://x" reqErr
        sessionS1).result ≠ .redirectLoginError "invalid_state" ∧
    (callbackLoader netW parseW 0 envW "https://x" reqErr
        sessionS1).exchangeCalls = 0 ∧
    reqErr.code = some "c" ∧ reqErr.state = some "s2" ∧
    sessionS1.state = some "s1" := by
  decide

/-- C1 (amended): for every callback request carrying a (truthy) code and
state and no provider error parameter, a received state differing from the
stored one terminates the handler with the `invalid_state` failure, with
the session unchanged and `exchangeCodeForToken` never invoked. -/
theorem callbackLoader_state_mismatch_short_circuits
    (net : NetOracle) (parse : String → Option JwtJson) (now : Nat)
    (env : Env) (origin : String) (req : CallbackRequest)
    (session : Session) (code state : String)
    (herr : truthy req.error = false)
    (hcode : truthyStr req.code = some code)
    (hstate : truthyStr req.state = some state)
    (hmismatch : session.state ≠ some state) :
    callbackLoader net parse now env origin req session =
      ⟨.redirectLoginError "invalid_state", session, 0⟩ := by
  simp [callbackLoader, herr, hcode, hstate, hmismatch]

/-- Witness for the amended C1: stored state `"s1"`, received state
`"st"`. -/
theorem callbackLoader_state_mismatch_witness :
    callbackLoader netW parseW 0 envW "https://x" reqOk sessionS1 =
      ⟨.redirectLoginError "invalid_state", sessionS1, 0⟩ :=
  callbackLoader_state_mismatch_short_circuits netW parseW 0 envW
    "https://x" reqOk sessionS1 "c" "st" (by decide) (by decide) (by decide)
    (by decide)

/-- C2: when the stored nonce differs from the nonce decoded out of the
identity token returned by a successful code exchange, the callback
handler terminates with the `invalid_nonce` failure and the session is
left entirely unchanged — in particular none of the access-token,
refresh-token, identity-token or expiry keys is written, although the
exchange was performed (one call). -/
theorem callbackLoader_nonce_mismatch_discards_tokens
    (net : NetOracle) (parse : String → Option JwtJson) (now : Nat)
    (env : Env) (origin : String) (req : CallbackRequest)
    (session : Session) (code state codeVerifier shopDomain clientId
      shopId storedNonce : String) (tokenResponse : AccessTokenResponse)
    (decoded : DecodedJWT)
    (herr : truthy req.error = false)
    (hcode : truthyStr req.code = some code)
    (hstate : truthyStr req.state = some state)
    (hmatch : session.state = some state)
    (hver : truthyStr session.code_verifier = some codeVerifier)
    (hdom : truthyStr env.PUBLIC_STORE_DOMAIN = some shopDomain)
    (hcid : jsOr env.PUBLIC_CUSTOMER_ACCOUNT_API_CLIENT_ID
      env.CUSTOMER_ACCOUNT_CLIENT_ID = some clientId)
    (hsid : resolveShopId env = some shopId)
    (hex : net.exchangeCode
      ("https://shopify.com/authentication/" ++ shopId ++ "/oauth/token")
      clientId (origin ++ "/account/authorize/callback") code codeVerifier
      = .ok tokenResponse)
    (hnonce : truthyStr session.nonce = some storedNonce)
    (hdec : decodeJwt parse tokenResponse.id_token = .ok decoded)
    (hmm : decoded.payload.nonce ≠ some storedNonce) :
    callbackLoader net parse now env origin req session =
      ⟨.redirectLoginError "invalid_nonce", session, 1⟩ := by
  simp [callbackLoader, herr, hcode, hstate, hmatch, hver, hdom, hcid,
    hsid, hex, hnonce, getNonce, hdec, Except.map, hmm]

/-- Witness for C2: stored nonce `"n1"`, identity token decoding to nonce
`"n2"`, successful exchange; tokens are discarded. -/
theorem callbackLoader_nonce_mismatch_witness :
    callbackLoader netW parseW 0 envW "https://x" reqOk sessionCb =
      ⟨.redirectLoginError "invalid_nonce", sessionCb, 1⟩ :=
  callbackLoader_nonce_mismatch_discards_tokens netW parseW 0 envW
    "https://x" reqOk sessionCb "c" "st" "ver" "shop.example" "cid" "123"
    "n1" tokW ⟨⟨none⟩, ⟨some "n2"⟩, "sig"⟩ (by decide) (by decide)
    (by decide) (by decide) (by decide) (by decide) (by decide) (by decide)
    rfl (by decide) rfl (by decide)

/-- C7 (counterexample): the token `"e30.e30.x.y"` has four dot-separated
segments, yet `decodeJwt` accepts it — the array destructuring keeps the
first three segments and silently ignores the rest (`"e30"` is real
base64: `atob` gives the text of an empty JSON object, so the oracle
returning an empty claims object matches JavaScript behaviour). -/
theorem decodeJwt_extra_segment_cex :
    decodeJwt parseE30 "e30.e30.x.y" = .ok ⟨⟨none⟩, ⟨none⟩, "x"⟩ ∧
    (jsSplitDots "e30.e30.x.y").length = 4 ∧
    decodeJwt parseE30 "e30.e30.x.y" ≠ .error .invalidFormat :=
  ⟨rfl, by decide, by
    rw [show decodeJwt parseE30 "e30.e30.x.y" =
      .ok ⟨⟨none⟩, ⟨none⟩, "x"⟩ from rfl]
    simp⟩

/-- C7 (amended): `decodeJwt` fails with the malformed-token error exactly
when the dot-split of the token does not provide three non-empty leading
segments; in particular every token with fewer than three dot-separated
segments fails with it.  Tokens with more than three segments are not
rejected on that ground (segments past the third are ignored). -/
theorem decodeJwt_malformed_iff
    (parse : String → Option JwtJson) (token : String) :
    (decodeJwt parse token = .error .invalidFormat ↔
      ¬ hasThreeNonEmptySegments token) ∧
    ((jsSplitDots token).length < 3 →
      decodeJwt parse token = .error .invalidFormat) := by
  constructor
  · unfold decodeJwt hasThreeNonEmptySegments
    generalize jsSplitDots token = l
    rcases l with _ | ⟨a, _ | ⟨b, _ | ⟨c, rest⟩⟩⟩
    · simp [truthyStr]
    · by_cases ha : a = "" <;> simp [truthyStr, ha]
    · by_cases ha : a = "" <;> by_cases hb : b = "" <;>
        simp [truthyStr, ha, hb]
    · by_cases ha : a = "" <;> by_cases hb : b = "" <;>
        by_cases hc : c = "" <;> simp [truthyStr, ha, hb, hc]
      cases parse a <;> cases parse b <;> simp
  · intro hlen
    unfold decodeJwt
    generalize hl : jsSplitDots token = l at hlen ⊢
    rcases l with _ | ⟨a, _ | ⟨b, _ | ⟨c, rest⟩⟩⟩
    · simp [truthyStr]
    · by_cases ha : a = "" <;> simp [truthyStr, ha]
    · by_cases ha : a = "" <;> by_cases hb : b = "" <;>
        simp [truthyStr, ha, hb]
    · simp at hlen
      omega

/-- Witness for the amended C7: the two-segment token `"a.b"` fails with
the malformed-token error. -/
theorem decodeJwt_malformed_iff_witness :
    decodeJwt parseE30 "a.b" = .error .invalidFormat :=
  (decodeJwt_malformed_iff parseE30 "a.b").2 (by decide)

/-- Applying both character replacements to a standard base64 alphabet
character yields the base64url alphabet character of the same index. -/
theorem rep_b64CharAt (i : Nat) (h : i < 64) :
    repSlash (repPlus (b64CharAt i)) = b64UrlCharAt i := by
  have key : ∀ j : Fin 64,
      repSlash (repPlus (b64CharAt j.val)) = b64UrlCharAt j.val := by decide
  exact key ⟨i, h⟩

/-- No base64url alphabet character is the padding character. -/
theorem b64UrlCharAt_ne_pad (i : Nat) (h : i < 64) :
    (b64UrlCharAt i != '=') = true := by
  have key : ∀ j : Fin 64, (b64UrlCharAt j.val != '=') = true := by decide
  exact key ⟨i, h⟩

/-- The source pipeline `btoa` → replace `+`,`/` → strip `=` agrees with
direct unpadded base64url encoding on every byte sequence. -/
theorem base64UrlEncode_eq_noPad (bytes : List Nat)
    (h : ∀ b ∈ bytes, b < 256) :
    base64UrlEncode bytes = base64UrlNoPad bytes := by
  have hpad : repSlash (repPlus '=') = '=' := by decide
  induction bytes using btoaBytes.induct with
  | case1 => rfl
  | case2 b1 =>
    have h1 : b1 < 256 := h b1 (by simp)
    have u1 := rep_b64CharAt (b1 / 4) (by omega)
    have u2 := rep_b64CharAt (b1 % 4 * 16) (by omega)
    have n1 := b64UrlCharAt_ne_pad (b1 / 4) (by omega)
    have n2 := b64UrlCharAt_ne_pad (b1 % 4 * 16) (by omega)
    simp [base64UrlEncode, btoaBytes, base64UrlNoPad, u1, u2, n1, n2, hpad]
  | case3 b1 b2 =>
    have h1 : b1 < 256 := h b1 (by simp)
    have h2 : b2 < 256 := h b2 (by simp)
    have u1 := rep_b64CharAt (b1 / 4) (by omega)
    have u2 := rep_b64CharAt (b1 % 4 * 16 + b2 / 16) (by omega)
    have u3 := rep_b64CharAt (b2 % 16 * 4) (by omega)
    have n1 := b64UrlCharAt_ne_pad (b1 / 4) (by omega)
    have n2 := b64UrlCharAt_ne_pad (b1 % 4 * 16 + b2 / 16) (by omega)
    have n3 := b64UrlCharAt_ne_pad (b2 % 16 * 4) (by omega)
    simp [base64UrlEncode, btoaBytes, base64UrlNoPad, u1, u2, u3,
      n1, n2, n3, hpad]
  | case4 b1 b2 b3 rest ih =>
    have h1 : b1 < 256 := h b1 (by simp)
    have h2 : b2 < 256 := h b2 (by simp)
    have h3 : b3 < 256 := h b3 (by simp)
    have hrest : ∀ b ∈ rest, b < 256 := fun b hb => h b (by simp [hb])
    have ihr := ih hrest
    simp only [base64UrlEncode, List.map_map] at ihr
    have u1 := rep_b64CharAt (b1 / 4) (by omega)
    have u2 := rep_b64CharAt (b1 % 4 * 16 + b2 / 16) (by omega)
    have u3 := rep_b64CharAt (b2 % 16 * 4 + b3 / 64) (by omega)
    have u4 := rep_b64CharAt (b3 % 64) (by omega)
    have n1 := b64UrlCharAt_ne_pad (b1 / 4) (by omega)
    have n2 := b64UrlCharAt_ne_pad (b1 % 4 * 16 + b2 / 16) (by omega)
    have n3 := b64UrlCharAt_ne_pad (b2 % 16 * 4 + b3 / 64) (by omega)
    have n4 := b64UrlCharAt_ne_pad (b3 % 64) (by omega)
    simp [base64UrlEncode, btoaBytes, base64UrlNoPad, u1, u2, u3, u4,
      n1, n2, n3, n4, ihr]

/-- C5: for every verifier string, `generateCodeChallenge` produces
exactly the base64url encoding, without padding, of the SHA-256 digest of
the UTF-8 bytes of the verifier (the digest primitive is the `sha256`
oracle; its output bytes are bytes, i.e. below 256). -/
theorem generateCodeChallenge_eq_spec (sha256 : List Nat → List Nat)
    (codeVerifier : String)
    (h : ∀ b ∈ sha256 (utf8Bytes codeVerifier), b < 256) :
    generateCodeChallenge sha256 codeVerifier =
      specCodeChallenge sha256 codeVerifier :=
  base64UrlEncode_eq_noPad (sha256 (utf8Bytes codeVerifier)) h

/-- Witness for C5 at a concrete digest oracle and verifier. -/
theorem generateCodeChallenge_eq_spec_witness :
    (∀ b ∈ shaW (utf8Bytes "verifier"), b < 256) ∧
    generateCodeChallenge shaW "verifier" = specCodeChallenge shaW "verifier"
    := ⟨by decide, generateCodeChallenge_eq_spec shaW "verifier" (by decide)⟩

end CustomerAuth
